import Mathlib

/-
Verification of the picorv32 low-level access crate: the instruction layer
(src/src/asm.rs) and the interrupt-control layer (src/src/interrupt.rs).

The machine state visible to the crate is a handful of 32-bit hardware
registers (IRQ mask, timer counter, pending-IRQ bitmask, shadow q-registers,
program counter).  Each instruction wrapper in asm.rs is embedded as a state
transformer whose effect is the one documented in the wrapper's own doc
comment (quoting the picorv32 manual); the `#[cfg(not(riscv))]` arms, which
call `unimplemented!()`, are embedded as `Except.error` results.  The `.insn`
directives are embedded as explicit R-format field assignments.
-/

namespace Coucal

/-- Hardware register file of the picorv32 as seen by this crate.
All word registers are 32-bit values, represented as `Nat` kept below
`2 ^ 32`. `irqActive` is the processor-internal in-interrupt flag cleared by
`retirq` ("re-enables interrupts"). -/
structure PicoState where
  irqMask : Nat
  timerCounter : Nat
  pendingIrq : Nat
  q2 : Nat
  q3 : Nat
  pc : Nat
  savedPc : Nat
  irqActive : Bool
deriving DecidableEq

/-- The all-ones 32-bit mask `0xffff_ffff` written by `interrupt::disable`
and by the entry half of `interrupt::free`. -/
def allOnes : Nat := 0xffffffff

/-- The `maskirq` instruction wrapper (src/src/asm.rs, `pub unsafe fn maskirq`):
writes a new value to the IRQ mask register and returns the old value, in one
instruction.  The `% 2 ^ 32` reflects the `u32` argument type. -/
def maskirq (mask : Nat) (s : PicoState) : Nat × PicoState :=
  (s.irqMask, { s with irqMask := mask % 2 ^ 32 })

/-- The `timer` instruction wrapper (src/src/asm.rs, `pub unsafe fn timer`):
resets the timer counter to a new value and returns the old value. -/
def timer (cyclesToWait : Nat) (s : PicoState) : Nat × PicoState :=
  (s.timerCounter, { s with timerCounter := cyclesToWait % 2 ^ 32 })

/-- One clock cycle of the countdown timer, as documented on `timer`:
"The counter counts down clock cycles and triggers the timer interrupt when
transitioning from 1 to 0.  Setting the counter to zero disables the timer."
The timer interrupt is bit 0 of the pending-IRQ bitmask. -/
def tick (s : PicoState) : PicoState :=
  if s.timerCounter = 0 then s
  else if s.timerCounter = 1 then
    { s with timerCounter := 0, pendingIrq := s.pendingIrq ||| 1 }
  else { s with timerCounter := s.timerCounter - 1 }

/-- The `getq` instruction wrapper for `q2` (src/src/asm.rs, `getq2`). -/
def getq2 (s : PicoState) : Nat × PicoState := (s.q2, s)

/-- The `getq` instruction wrapper for `q3` (src/src/asm.rs, `getq3`). -/
def getq3 (s : PicoState) : Nat × PicoState := (s.q3, s)

/-- The `setq` instruction wrapper for `q2` (src/src/asm.rs, `setq2`). -/
def setq2 (val : Nat) (s : PicoState) : PicoState := { s with q2 := val % 2 ^ 32 }

/-- The `setq` instruction wrapper for `q3` (src/src/asm.rs, `setq3`). -/
def setq3 (val : Nat) (s : PicoState) : PicoState := { s with q3 := val % 2 ^ 32 }

/-- The `retirq` instruction wrapper (src/src/asm.rs): "resets the program counter
to the last value before the interrupt and re-enables interrupts". -/
def retirq (s : PicoState) : PicoState := { s with pc := s.savedPc, irqActive := false }

/-- The `waitirq` instruction wrapper (src/src/asm.rs): "Pause execution until an
interrupt becomes pending.  The bitmask of pending IRQs is returned."
Blocking (no pending interrupt) is modelled as `none`. -/
def waitirq (s : PicoState) : Option (Nat × PicoState) :=
  if s.pendingIrq = 0 then none else some (s.pendingIrq, s)

/-- Execution targets distinguished by the `#[cfg(riscv)]` /
`#[cfg(not(riscv))]` arms of every wrapper in src/src/asm.rs. -/
inductive TargetArch
  | riscv
  | other
deriving DecidableEq

/-- The panic message of Rust's `unimplemented!()` macro, which every
instruction wrapper's `#[cfg(not(riscv))]` arm expands to. -/
def unimplementedMsg : String := "not implemented"

/-- Wrapper `getq2` with the target dispatch of its `match` over cfg arms. -/
def getq2On : TargetArch → PicoState → Except String (Nat × PicoState)
  | TargetArch.riscv, s => Except.ok (getq2 s)
  | TargetArch.other, _ => Except.error unimplementedMsg

/-- Wrapper `getq3` with the target dispatch of its `match` over cfg arms. -/
def getq3On : TargetArch → PicoState → Except String (Nat × PicoState)
  | TargetArch.riscv, s => Except.ok (getq3 s)
  | TargetArch.other, _ => Except.error unimplementedMsg

/-- Wrapper `setq2` with the target dispatch of its `match` over cfg arms. -/
def setq2On : TargetArch → Nat → PicoState → Except String PicoState
  | TargetArch.riscv, v, s => Except.ok (setq2 v s)
  | TargetArch.other, _, _ => Except.error unimplementedMsg

/-- Wrapper `setq3` with the target dispatch of its `match` over cfg arms. -/
def setq3On : TargetArch → Nat → PicoState → Except String PicoState
  | TargetArch.riscv, v, s => Except.ok (setq3 v s)
  | TargetArch.other, _, _ => Except.error unimplementedMsg

/-- Wrapper `retirq` with the target dispatch of its `match` over cfg arms. -/
def retirqOn : TargetArch → PicoState → Except String PicoState
  | TargetArch.riscv, s => Except.ok (retirq s)
  | TargetArch.other, _ => Except.error unimplementedMsg

/-- Wrapper `maskirq` with the target dispatch of its `match` over cfg arms. -/
def maskirqOn : TargetArch → Nat → PicoState → Except String (Nat × PicoState)
  | TargetArch.riscv, m, s => Except.ok (maskirq m s)
  | TargetArch.other, _, _ => Except.error unimplementedMsg

/-- Wrapper `waitirq` with the target dispatch of its `match` over cfg arms. -/
def waitirqOn : TargetArch → PicoState → Except String (Option (Nat × PicoState))
  | TargetArch.riscv, s => Except.ok (waitirq s)
  | TargetArch.other, _ => Except.error unimplementedMsg

/-- Wrapper `timer` with the target dispatch of its `match` over cfg arms. -/
def timerOn : TargetArch → Nat → PicoState → Except String (Nat × PicoState)
  | TargetArch.riscv, c, s => Except.ok (timer c s)
  | TargetArch.other, _, _ => Except.error unimplementedMsg

/-- Function `interrupt::disable` (src/src/interrupt.rs): `maskirq(0xffff_ffff)`,
return value discarded. -/
def disable (s : PicoState) : PicoState := (maskirq allOnes s).2

/-- Function `interrupt::enable` (src/src/interrupt.rs): `maskirq(0)`,
return value discarded. -/
def enable (s : PicoState) : PicoState := (maskirq 0 s).2

/-- Function `interrupt::free` (src/src/interrupt.rs): save
`old_mask = maskirq(0xffff_ffff)`, run the closure, then `maskirq(old_mask)`,
and return the closure's result.  The closure is a state transformer; the
`&CriticalSection` token carries no data and is not modelled. -/
def free {R : Type} (f : PicoState → R × PicoState) (s : PicoState) : R × PicoState :=
  let p1 := maskirq allOnes s
  let p2 := f p1.2
  let p3 := maskirq p1.1 p2.2
  (p2.1, p3.2)

/-- Composition of `N` nested `interrupt::free` calls wrapped around a body `f`. -/
def nestedFree {R : Type} : Nat → (PicoState → R × PicoState) → PicoState → R × PicoState
  | 0, f => f
  | n + 1, f => free (nestedFree n f)

/-- Function `interrupt::free` when the closure may unwind (Rust panic), following the
source control flow: the restoring `maskirq(old_mask)` call sits after the
closure invocation with no guard, so on an `error` outcome it never runs and
the state at unwind time is returned as is. -/
def freeUnwind {E R : Type} (f : PicoState → Except E R × PicoState) (s : PicoState) :
    Except E R × PicoState :=
  let p1 := maskirq allOnes s
  let p2 := f p1.2
  match p2.1 with
  | Except.error e => (Except.error e, p2.2)
  | Except.ok r =>
    let p3 := maskirq p1.1 p2.2
    (Except.ok r, p3.2)

/-- R-format instruction fields, in the order of the `.insn r` directive used
in src/src/asm.rs: `.insn r opcode, func3, func7, rd, rs1, rs2`. -/
structure InsnR where
  opcode : Nat
  func3 : Nat
  func7 : Nat
  rd : Nat
  rs1 : Nat
  rs2 : Nat
deriving DecidableEq

/-- Register-field identifier the assembler resolves `q2` to: the picorv32
treats the q-registers as extensions of the register file at fixed offsets,
and `q2` denotes shadow register number 2 in a register field. -/
def q2RegId : Nat := 2

/-- Register-field identifier the assembler resolves `q3` to. -/
def q3RegId : Nat := 3

/-- Directive `.insn r 0b0001011, 0, 0b0000000, {0}, q2, zero` from `getq2`. -/
def getq2Insn (rd : Nat) : InsnR := ⟨0b0001011, 0, 0b0000000, rd, q2RegId, 0⟩

/-- Directive `.insn r 0b0001011, 0, 0b0000000, {0}, q3, zero` from `getq3`. -/
def getq3Insn (rd : Nat) : InsnR := ⟨0b0001011, 0, 0b0000000, rd, q3RegId, 0⟩

/-- Directive `.insn r 0b0001011, 0, 0b0000001, q2, {0}, zero` from `setq2`. -/
def setq2Insn (rs1 : Nat) : InsnR := ⟨0b0001011, 0, 0b0000001, q2RegId, rs1, 0⟩

/-- Directive `.insn r 0b0001011, 0, 0b0000001, q3, {0}, zero` from `setq3`. -/
def setq3Insn (rs1 : Nat) : InsnR := ⟨0b0001011, 0, 0b0000001, q3RegId, rs1, 0⟩

/-- Directive `.insn r 0b0001011, 0, 0b0000010, zero, zero, zero` from `retirq`. -/
def retirqInsn : InsnR := ⟨0b0001011, 0, 0b0000010, 0, 0, 0⟩

/-- Directive `.insn r 0b0001011, 0, 0b0000011, {0}, {1}, zero` from `maskirq`. -/
def maskirqInsn (rd rs1 : Nat) : InsnR := ⟨0b0001011, 0, 0b0000011, rd, rs1, 0⟩

/-- Directive `.insn r 0b0001011, 0, 0b0000100, {0}, zero, zero` from `waitirq`. -/
def waitirqInsn (rd : Nat) : InsnR := ⟨0b0001011, 0, 0b0000100, rd, 0, 0⟩

/-- Directive `.insn r 0b0001011, 0, 0b0000101, {0}, {1}, zero` from `timer`. -/
def timerInsn (rd rs1 : Nat) : InsnR := ⟨0b0001011, 0, 0b0000101, rd, rs1, 0⟩

/-- Name of the `timer` wrapper's parameter in src/src/asm.rs. -/
def timerParamName : String := "cycles_to_wait"

/-- Identifier bound by `in(reg)` in the inline-asm arm of `timer` in
src/src/asm.rs. -/
def timerAsmInputName : String := "n_cycles_to_wait"

lemma allOnes_lt : allOnes < 2 ^ 32 := by norm_num [allOnes]

lemma allOnes_mod : allOnes % 2 ^ 32 = allOnes := Nat.mod_eq_of_lt allOnes_lt

/-- After `free`, the IRQ mask equals the entry mask reduced mod `2 ^ 32`,
whatever the body did. -/
lemma free_mask_eq {R : Type} (f : PicoState → R × PicoState) (s : PicoState) :
    ((free f s).2).irqMask = s.irqMask % 2 ^ 32 := by
  simp [free, maskirq]

lemma tick_of_counter_zero (s : PicoState) (h : s.timerCounter = 0) : tick s = s := by
  simp [tick, h]

/-- A sample well-formed machine state with every register zero. -/
def st0 : PicoState := ⟨0, 0, 0, 0, 0, 0, 0, false⟩

/-- A sample machine state with pending-IRQ bitmask `3`. -/
def st1 : PicoState := ⟨0, 0, 3, 0, 0, 0, 0, false⟩

/-- A sample machine state with a partially masked IRQ register (`5`). -/
def st2 : PicoState := ⟨5, 0, 0, 0, 0, 0, 0, false⟩

/-- A body that records nothing and unwinds with message "boom". -/
def panicBody (s : PicoState) : Except String Nat × PicoState := (Except.error "boom", s)

/-- C1: for every body `f` and every entry state whose IRQ mask is a 32-bit
value, `interrupt::free f` equals: run `f` exactly once on the state whose
mask has been replaced by all-ones, return `f`'s result, and restore the mask
bit-for-bit to its entry value. -/
theorem free_spec {R : Type} (f : PicoState → R × PicoState) (s : PicoState)
    (h : s.irqMask < 2 ^ 32) :
    free f s =
      ((f { s with irqMask := allOnes }).1,
       { (f { s with irqMask := allOnes }).2 with irqMask := s.irqMask }) := by
  simp [free, maskirq, allOnes, Nat.mod_eq_of_lt h]
  omega

/-- Witness for C1 at the spec scenario: entry mask `0`, body returns `42`. -/
theorem free_spec_witness :
    free (fun t : PicoState => ((42 : Nat), t)) st0 = (42, st0) := by
  have h := free_spec (fun t : PicoState => ((42 : Nat), t)) st0 (by decide)
  simpa [st0, allOnes] using h

/-- C2: for every depth `N ≥ 1`, `N` nested `interrupt::free` calls restore
the entry mask after all bodies return; and a `free` call on a state whose
mask is already all-ones restores all-ones, a net no-op on the mask. -/
theorem nestedFree_mask_restored {R : Type} (N : Nat) (hN : 1 ≤ N)
    (f : PicoState → R × PicoState) (s : PicoState) (h : s.irqMask < 2 ^ 32) :
    ((nestedFree N f s).2).irqMask = s.irqMask ∧
    (∀ t : PicoState, t.irqMask = allOnes → ((free f t).2).irqMask = allOnes) := by
  constructor
  · cases N with
    | zero => omega
    | succ n =>
      show ((free (nestedFree n f) s).2).irqMask = s.irqMask
      rw [free_mask_eq, Nat.mod_eq_of_lt h]
  · intro t ht
    rw [free_mask_eq, ht, allOnes_mod]

/-- Witness for C2 at depth 2 from the all-enabled state. -/
theorem nestedFree_mask_restored_witness :
    ((nestedFree 2 (fun t : PicoState => ((0 : Nat), t)) st0).2).irqMask = st0.irqMask ∧
    ((free (fun t : PicoState => ((0 : Nat), t))
        { st0 with irqMask := allOnes }).2).irqMask = allOnes := by
  have h := nestedFree_mask_restored 2 (by decide)
    (fun t : PicoState => ((0 : Nat), t)) st0 (by decide)
  exact ⟨h.1, h.2 { st0 with irqMask := allOnes } rfl⟩

/-- C3: `maskirq m` returns the previous mask `p` and replaces the register
with `m` in the same step, so any subsequent `maskirq` call returns `m`; and
on the riscv target it always succeeds. -/
theorem maskirq_swap (m p m2 : Nat) (s : PicoState) (hp : s.irqMask = p)
    (hm : m < 2 ^ 32) :
    (maskirq m s).1 = p ∧
    (maskirq m2 (maskirq m s).2).1 = m ∧
    maskirqOn TargetArch.riscv m s = Except.ok (maskirq m s) := by
  refine ⟨hp, ?_, rfl⟩
  simp [maskirq]
  omega

/-- Witness for C3 with `m = 5`, `m2 = 7` from the all-enabled state. -/
theorem maskirq_swap_witness :
    (maskirq 5 st0).1 = 0 ∧
    (maskirq 7 (maskirq 5 st0).2).1 = 5 ∧
    maskirqOn TargetArch.riscv 5 st0 = Except.ok (maskirq 5 st0) :=
  maskirq_swap 5 0 7 st0 rfl (by decide)

/-- C4: `interrupt::disable` sets the mask to all-ones and `interrupt::enable`
sets it to all-zeros, discarding the previous mask (neither returns a value);
an immediate mask read (the destructive `maskirq` read-back) yields all-ones
respectively all-zeros. -/
theorem disable_enable_spec (s : PicoState) (x y : Nat) :
    (disable s).irqMask = allOnes ∧
    (enable s).irqMask = 0 ∧
    (maskirq x (disable s)).1 = allOnes ∧
    (maskirq y (enable s)).1 = 0 := by
  refine ⟨?_, ?_, ?_, ?_⟩ <;> simp [disable, enable, maskirq, allOnes]

/-- C5: `timer c` returns the previous counter and replaces it with `c`; and
after `timer 0` the counter is disabled: no number of clock ticks changes the
state (in particular bit 0 of the pending-IRQ bitmask never fires) until the
timer is reset again.  The last conjunct records the identifier slip in the
inline-asm arm of `timer`: the asm operand binds `n_cycles_to_wait`, which is
not the function's parameter `cycles_to_wait`, so that arm does not compile. -/
theorem timer_reset_and_disable (c k : Nat) (s : PicoState) :
    (timer c s).1 = s.timerCounter ∧
    ((timer c s).2).timerCounter = c % 2 ^ 32 ∧
    tick^[k] ((timer 0 s).2) = (timer 0 s).2 ∧
    timerAsmInputName ≠ timerParamName := by
  refine ⟨rfl, rfl, ?_, by decide⟩
  have h0 : ((timer 0 s).2).timerCounter = 0 := by simp [timer]
  induction k with
  | zero => rfl
  | succ n ih =>
    rw [Function.iterate_succ_apply, tick_of_counter_zero _ h0, ih]

/-- C6: on a target that is not the riscv processor family, every instruction
wrapper hits its `unimplemented!()` arm: it deterministically aborts with the
panic message and never produces an `ok` value. -/
theorem nonTarget_aborts (s : PicoState) (v : Nat) :
    getq2On TargetArch.other s = Except.error unimplementedMsg ∧
    getq3On TargetArch.other s = Except.error unimplementedMsg ∧
    setq2On TargetArch.other v s = Except.error unimplementedMsg ∧
    setq3On TargetArch.other v s = Except.error unimplementedMsg ∧
    retirqOn TargetArch.other s = Except.error unimplementedMsg ∧
    maskirqOn TargetArch.other v s = Except.error unimplementedMsg ∧
    waitirqOn TargetArch.other s = Except.error unimplementedMsg ∧
    timerOn TargetArch.other v s = Except.error unimplementedMsg := by
  exact ⟨rfl, rfl, rfl, rfl, rfl, rfl, rfl, rfl⟩

/-- C7: every wrapper emits one R-format instruction with opcode `0b0001011`;
`retirq`/`maskirq`/`waitirq`/`timer` carry the distinct func7 discriminators
`0b0000010`/`0b0000011`/`0b0000100`/`0b0000101` with rs2 fixed to the zero
register; `getq2`/`getq3` (func7 `0b0000000`) place the q-register identifier
in the rs1 field, and `setq2`/`setq3` (func7 `0b0000001`) place it in the rd
field. -/
theorem insn_encodings (rd rs1 : Nat) :
    (retirqInsn.opcode = 0b0001011 ∧ (maskirqInsn rd rs1).opcode = 0b0001011 ∧
      (waitirqInsn rd).opcode = 0b0001011 ∧ (timerInsn rd rs1).opcode = 0b0001011 ∧
      (getq2Insn rd).opcode = 0b0001011 ∧ (getq3Insn rd).opcode = 0b0001011 ∧
      (setq2Insn rs1).opcode = 0b0001011 ∧ (setq3Insn rs1).opcode = 0b0001011) ∧
    (retirqInsn.func7 = 0b0000010 ∧ (maskirqInsn rd rs1).func7 = 0b0000011 ∧
      (waitirqInsn rd).func7 = 0b0000100 ∧ (timerInsn rd rs1).func7 = 0b0000101) ∧
    (retirqInsn.rs2 = 0 ∧ (maskirqInsn rd rs1).rs2 = 0 ∧
      (waitirqInsn rd).rs2 = 0 ∧ (timerInsn rd rs1).rs2 = 0) ∧
    (retirqInsn.func7 ≠ (maskirqInsn rd rs1).func7 ∧
      retirqInsn.func7 ≠ (waitirqInsn rd).func7 ∧
      retirqInsn.func7 ≠ (timerInsn rd rs1).func7 ∧
      (maskirqInsn rd rs1).func7 ≠ (waitirqInsn rd).func7 ∧
      (maskirqInsn rd rs1).func7 ≠ (timerInsn rd rs1).func7 ∧
      (waitirqInsn rd).func7 ≠ (timerInsn rd rs1).func7) ∧
    ((getq2Insn rd).func7 = 0b0000000 ∧ (getq2Insn rd).rs1 = q2RegId ∧
      (getq3Insn rd).func7 = 0b0000000 ∧ (getq3Insn rd).rs1 = q3RegId ∧
      (setq2Insn rs1).func7 = 0b0000001 ∧ (setq2Insn rs1).rd = q2RegId ∧
      (setq3Insn rs1).func7 = 0b0000001 ∧ (setq3Insn rs1).rd = q3RegId) := by
  simp [retirqInsn, maskirqInsn, waitirqInsn, timerInsn,
    getq2Insn, getq3Insn, setq2Insn, setq3Insn, q2RegId, q3RegId]

/-- C8: `waitirq` blocks (does not return) while the pending-IRQ bitmask is
zero; whenever it returns, its return value is exactly the pending-IRQ
bitmask, which is non-zero, and the state is unchanged. -/
theorem waitirq_spec (s : PicoState) :
    (s.pendingIrq = 0 → waitirq s = none) ∧
    (∀ r t, waitirq s = some (r, t) → r = s.pendingIrq ∧ r ≠ 0 ∧ t = s) := by
  constructor
  · intro h
    simp [waitirq, h]
  · intro r t h
    by_cases hp : s.pendingIrq = 0
    · simp [waitirq, hp] at h
    · simp [waitirq, hp] at h
      exact ⟨h.1.symm, h.1 ▸ hp, h.2.symm⟩

/-- Witness for C8: blocked on the zero state, returning `3` on `st1`. -/
theorem waitirq_spec_witness :
    waitirq st0 = none ∧ ((3 : Nat) = st1.pendingIrq ∧ (3 : Nat) ≠ 0 ∧ st1 = st1) :=
  ⟨(waitirq_spec st0).1 rfl, (waitirq_spec st1).2 3 st1 rfl⟩

/-- C9: if the body unwinds instead of returning, the restoring
`maskirq(old_mask)` call never runs: for a body that does not itself touch the
mask, `free` propagates the unwind and leaves the IRQ mask at all-ones. -/
theorem free_unwind_leaves_disabled {E R : Type} (f : PicoState → Except E R × PicoState)
    (s : PicoState) (e : E)
    (hpres : ∀ t, ((f t).2).irqMask = t.irqMask)
    (hpanic : (f { s with irqMask := allOnes }).1 = Except.error e) :
    (freeUnwind f s).1 = Except.error e ∧
    ((freeUnwind f s).2).irqMask = allOnes := by
  have hstate : (maskirq allOnes s).2 = { s with irqMask := allOnes } := by
    simp [maskirq, allOnes]
  constructor
  · simp [freeUnwind, hstate, hpanic]
  · simp [freeUnwind, hstate, hpanic, hpres]

/-- Witness for C9: a body that unwinds with "boom" from the all-enabled
state leaves the mask at all-ones. -/
theorem free_unwind_leaves_disabled_witness :
    (freeUnwind panicBody st0).1 = Except.error "boom" ∧
    ((freeUnwind panicBody st0).2).irqMask = allOnes :=
  free_unwind_leaves_disabled panicBody st0 "boom" (fun _ => rfl) rfl

/-- C10: `free` unconditionally overwrites the mask with the value saved at
entry when the body returns normally, even for bodies that rewrite the mask
register themselves via `maskirq`, `disable` or `enable`. -/
theorem free_overwrites_body_mask {R : Type} (f : PicoState → R × PicoState) (m : Nat)
    (s : PicoState) (h : s.irqMask < 2 ^ 32) :
    ((free f s).2).irqMask = s.irqMask ∧
    ((free (fun t => ((), (maskirq m t).2)) s).2).irqMask = s.irqMask ∧
    ((free (fun t => ((), disable t)) s).2).irqMask = s.irqMask ∧
    ((free (fun t => ((), enable t)) s).2).irqMask = s.irqMask := by
  refine ⟨?_, ?_, ?_, ?_⟩ <;> rw [free_mask_eq, Nat.mod_eq_of_lt h]

/-- Witness for C10 on a partially masked entry state (`5`), with a body
that writes `7` to the mask. -/
theorem free_overwrites_body_mask_witness :
    ((free (fun t : PicoState => ((0 : Nat), t)) st2).2).irqMask = st2.irqMask ∧
    ((free (fun t : PicoState => ((), (maskirq 7 t).2)) st2).2).irqMask = st2.irqMask :=
  ⟨(free_overwrites_body_mask (fun t : PicoState => ((0 : Nat), t)) 7 st2 (by decide)).1,
   (free_overwrites_body_mask (fun t : PicoState => ((0 : Nat), t)) 7 st2 (by decide)).2.1⟩

end Coucal
